import Mathlib

/-!
Verification development for the predico-data-sharing-barter-client API.

The repository is a FastAPI client that proxies registration, login and
wallet operations to a remote market server and a payment-gateway SDK
(Ethereum or IOTA). This file gives a shallow embedding of the route
handlers in `src/app/routes/user.py` and `src/app/routes/wallet.py`:
each handler becomes a pure Lean function from its inputs (the upstream
HTTP response, the local database state, the selected payment backend and
an oracle describing the SDK call results) to the HTTP outcome, the new
database state, the list of SDK calls performed and the background tasks
scheduled. Components that the routes import from modules not present in
the source tree (`app.dependencies`, `app.crud`, the token signing
helpers) are modelled from the specification and marked as such.
-/

namespace Predico

/-- A Python value, as carried in JSON bodies and exception details.
Dictionary keys are strings, which covers every dictionary the routes
build or parse. -/
inductive PyVal where
  | str (s : String)
  | int (n : Int)
  | bool (b : Bool)
  | pynone
  | list (xs : List PyVal)
  | dict (kvs : List (String × PyVal))
deriving Repr

/-- Dictionary lookup, mirroring Python `d[k]` returning `none` when the
value is not a dictionary or the key is absent. -/
def pyGet : PyVal → String → Option PyVal
  | .dict kvs, k => (kvs.find? (fun kv => kv.fst == k)).map Prod.snd
  | _, _ => none

/-- Dictionary lookup of a string field. -/
def pyGetStr (v : PyVal) (k : String) : Option String :=
  match pyGet v k with
  | some (.str s) => some s
  | _ => none

/-- The single-quote character (written by code point to keep the source
free of quote punctuation). -/
def squote : Char := Char.ofNat 39

/-- The double-quote character. -/
def dquote : Char := Char.ofNat 34

/-- The opening-brace character of a Python dictionary literal. -/
def lbraceChar : Char := Char.ofNat 123

/-- The closing-brace character of a Python dictionary literal. -/
def rbraceChar : Char := Char.ofNat 125

/-- Drop leading spaces. -/
def skipWs : List Char → List Char
  | c :: cs => if c = ' ' then skipWs cs else c :: cs
  | [] => []

/-- Take a maximal run of decimal digits. -/
def takeDigits : List Char → List Char × List Char
  | [] => ([], [])
  | c :: cs =>
    if c.isDigit then
      let (ds, rest) := takeDigits cs
      (c :: ds, rest)
    else ([], c :: cs)

/-- Digit run to a natural number. -/
def digitsToNat (ds : List Char) : Nat :=
  ds.foldl (fun acc c => acc * 10 + (c.toNat - 48)) 0

/-- Consume characters up to a closing quote; the model rejects escape
sequences. -/
def takeUntilQuote (q : Char) : List Char → Option (List Char × List Char)
  | [] => none
  | c :: cs =>
    if c = q then some ([], cs)
    else if c = Char.ofNat 92 then none
    else (takeUntilQuote q cs).map (fun p => (c :: p.1, p.2))

mutual

/-- Model of the literal grammar accepted by Python `ast.literal_eval`,
restricted to the forms the routes round-trip: strings, integers,
booleans, `None`, lists and string-keyed dictionaries. Parsing is
fuelled; `literalEval` supplies enough fuel for any input. -/
def parseVal : Nat → List Char → Option (PyVal × List Char)
  | 0, _ => none
  | fuel + 1, input =>
    match skipWs input with
    | [] => none
    | c :: cs =>
      if c = squote ∨ c = dquote then
        (takeUntilQuote c cs).map (fun p => (PyVal.str (String.mk p.1), p.2))
      else if c = '-' then
        match takeDigits cs with
        | ([], _) => none
        | (ds, rest) => some (PyVal.int (-(digitsToNat ds : Int)), rest)
      else if c.isDigit then
        match takeDigits (c :: cs) with
        | (ds, rest) => some (PyVal.int (digitsToNat ds : Int), rest)
      else if c = 'T' ∧ cs.take 3 = ['r', 'u', 'e'] then
        some (PyVal.bool true, cs.drop 3)
      else if c = 'F' ∧ cs.take 4 = ['a', 'l', 's', 'e'] then
        some (PyVal.bool false, cs.drop 4)
      else if c = 'N' ∧ cs.take 3 = ['o', 'n', 'e'] then
        some (PyVal.pynone, cs.drop 3)
      else if c = '[' then
        match skipWs cs with
        | ']' :: rest => some (PyVal.list [], rest)
        | rest =>
          match parseListItems fuel rest with
          | some (xs, rest2) => some (PyVal.list xs, rest2)
          | none => none
      else if c = lbraceChar then
        match skipWs cs with
        | d :: rest =>
          if d = rbraceChar then some (PyVal.dict [], rest)
          else
            match parseDictItems fuel (d :: rest) with
            | some (kvs, rest2) => some (PyVal.dict kvs, rest2)
            | none => none
        | [] => none
      else none

/-- Comma-separated list elements up to a closing bracket. -/
def parseListItems : Nat → List Char → Option (List PyVal × List Char)
  | 0, _ => none
  | fuel + 1, input =>
    match parseVal fuel input with
    | none => none
    | some (v, rest) =>
      match skipWs rest with
      | ',' :: rest2 =>
        match parseListItems fuel rest2 with
        | some (xs, rest3) => some (v :: xs, rest3)
        | none => none
      | ']' :: rest2 => some ([v], rest2)
      | _ => none

/-- Comma-separated `key: value` pairs up to a closing brace; keys must be
string literals. -/
def parseDictItems : Nat → List Char → Option (List (String × PyVal) × List Char)
  | 0, _ => none
  | fuel + 1, input =>
    match parseVal fuel input with
    | some (PyVal.str k, rest) =>
      match skipWs rest with
      | ':' :: rest2 =>
        match parseVal fuel rest2 with
        | none => none
        | some (v, rest3) =>
          match skipWs rest3 with
          | ',' :: rest4 =>
            match parseDictItems fuel rest4 with
            | some (kvs, rest5) => some ((k, v) :: kvs, rest5)
            | none => none
          | d :: rest4 =>
            if d = rbraceChar then some ([(k, v)], rest4) else none
          | [] => none
      | _ => none
    | _ => none

end

/-- Model of Python `ast.literal_eval` as used by the wallet routes:
parse one literal and require that only whitespace remains; any other
input raises (modelled as `none`). -/
def literalEval (s : String) : Option PyVal :=
  match parseVal (s.length + 1) s.data with
  | some (v, rest) => if skipWs rest = [] then some v else none
  | none => none

/-- A Python exception, as the route handlers can observe one: its class
(for the `except` clauses that discriminate) and its `str()` form. -/
inductive PyExc where
  | httpExc (statusCode : Nat) (detail : String)
  | connectionError (msg : String)
  | walletExc (msg : String)
  | valueError (msg : String)
  | genericExc (msg : String)
deriving Repr, DecidableEq

/-- Python `str(e)`; a Starlette `HTTPException` renders as
`"{status_code}: {detail}"`. -/
def excStr : PyExc → String
  | .httpExc s d => toString s ++ ": " ++ d
  | .connectionError m => m
  | .walletExc m => m
  | .valueError m => m
  | .genericExc m => m

/-- Whether the exception is a `WalletException` (matched by the first
`except` clause of the balance route). -/
def PyExc.isWallet : PyExc → Bool
  | .walletExc _ => true
  | _ => false

/-- A row of the `users` table: `app.models.models.User` with its
`email` and `password_hash` columns (spec section 3). -/
structure UserRec where
  email : String
  password_hash : String
deriving Repr, DecidableEq

/-- A row of the `tokens` table: a cached upstream token keyed by the
owning user (spec section 3, `CachedToken`). -/
structure TokenRec where
  user_email : String
  token : String
deriving Repr, DecidableEq

/-- The relational store visible to the routes: `users` and `tokens`. -/
structure Db where
  users : List UserRec
  tokens : List TokenRec
deriving Repr, DecidableEq

/-- `db.query(User).filter(User.email == email).first()`. -/
def findUser (db : Db) (email : String) : Option UserRec :=
  db.users.find? (fun u => u.email == email)

/-- Number of `users` rows carrying the given email. -/
def countUsers (db : Db) (email : String) : Nat :=
  (db.users.filter (fun u => u.email == email)).length

/-- Modelled from the spec: `pwd_context.hash` of `app.dependencies`
(passlib is external). Any injective-on-use hashing function serves the
model; verification compares the hash of the supplied password with the
stored hash. -/
def pwd_hash (password : String) : String :=
  "pbkdf2$" ++ password

/-- Modelled from the spec: `authenticate_user` of `app.dependencies`
(not in the source tree). Spec section 4.4: locally authenticate by
checking the supplied password against the locally stored hash; yields
the user row on success and nothing when the row is absent or the
password does not match. -/
def authenticate_user (email password : String) (db : Db) : Option UserRec :=
  match findUser db email with
  | none => none
  | some u => if pwd_hash password == u.password_hash then some u else none

/-- Modelled from the spec: `add_token` of `app.crud` (not in the source
tree). Spec section 4.1, `cache_upstream_token`: inserts a row keyed by
user and token. -/
def add_token (db : Db) (user_email token : String) : Db :=
  { db with tokens := db.tokens ++ [⟨user_email, token⟩] }

/-- A background task scheduled with `BackgroundTasks.add_task`, to run
after the response is sent. -/
inductive BgTask where
  | cleanup_expired_tokens (user_email : String)
deriving Repr, DecidableEq

/-- Modelled from the spec: the signing secret supplied by process
configuration (spec section 6). -/
def SECRET_KEY : String := "predico-signing-secret"

/-- Modelled from the spec: the message-authentication code underlying
token signing in `app.dependencies`. Its only property the routes rely
on is that validation recomputes it and compares. -/
def signMac (secret msg : String) : String :=
  "mac[" ++ secret ++ "|" ++ msg ++ "]"

/-- The signed payload string of a local token: kind, subject and expiry
(spec section 3, `LocalAccessToken` / `LocalRefreshToken` encode
`subject=email, expiry`). -/
def tokenMsg (kind sub : String) (exp : Nat) : String :=
  kind ++ "|" ++ sub ++ "|" ++ toString exp

/-- A local signed token: subject, expiry timestamp and signature. The
JWT wire encoding is abstracted to this record. -/
structure SignedToken where
  sub : String
  exp : Nat
  sig : String
deriving Repr, DecidableEq

/-- The wire form of a token, as placed in a JSON response body. -/
def encodeToken (t : SignedToken) : String :=
  t.sub ++ "." ++ toString t.exp ++ "." ++ t.sig

/-- Modelled from the spec: access-token lifetime (spec section 4.1,
stateless signing with an expiry). -/
def ACCESS_TOKEN_LIFETIME : Nat := 30

/-- Modelled from the spec: refresh-token lifetime. -/
def REFRESH_TOKEN_LIFETIME : Nat := 1440

/-- Modelled from the spec: `create_access_token` of `app.dependencies`
(not in the source tree): stateless signing of `sub` with an expiry. -/
def create_access_token (sub : String) (now : Nat) : SignedToken :=
  let exp := now + ACCESS_TOKEN_LIFETIME
  ⟨sub, exp, signMac SECRET_KEY (tokenMsg "access" sub exp)⟩

/-- Modelled from the spec: `create_refresh_token` of
`app.dependencies`. -/
def create_refresh_token (sub : String) (now : Nat) : SignedToken :=
  let exp := now + REFRESH_TOKEN_LIFETIME
  ⟨sub, exp, signMac SECRET_KEY (tokenMsg "refresh" sub exp)⟩

/-- Modelled from the spec: `get_payload_from_refresh_token` of
`app.dependencies` (spec section 4.1, `resolve_subject`): fails when the
signature or the expiry check fails, otherwise yields the subject. -/
def get_payload_from_refresh_token (now : Nat) (t : SignedToken) : Option String :=
  if t.sig == signMac SECRET_KEY (tokenMsg "refresh" t.sub t.exp) then
    if now < t.exp then some t.sub else none
  else none

/-- The payment backend selected once at startup by
`get_payment_processor`: `EthereumSmartContract` or
`IOTAPaymentController` (the two classes `wallet.py` imports and
type-checks against). -/
inductive Backend where
  | ethereum
  | iota
deriving Repr, DecidableEq

/-- The record returned by `get_account_data`; the routes only read its
`address` attribute. -/
structure AccountData where
  address : String
deriving Repr, DecidableEq

/-- The observable outcome of one SDK method call: either a value or a
raised exception. The oracle fixes, per identifier, what each payment
SDK method does in the scenario under consideration. -/
structure SdkOracle where
  create_account : String → Except PyExc PyVal
  get_account_data : String → Except PyExc AccountData
  get_balance : String → Except PyExc PyVal
  request_funds : String → Except PyExc String

/-- One SDK invocation, recorded in call order. -/
inductive SdkCall where
  | create_account (identifier : String)
  | get_account_data (identifier : String)
  | get_balance (identifier : String)
  | request_funds (identifier : String)
deriving Repr, DecidableEq

/-- The HTTP-level outcome of a route: a returned response, a raised
`HTTPException` handed to the framework, or an exception that no
`except` clause catches (the framework turns it into an internal server
error). -/
inductive RouteResult (α : Type) where
  | response (statusCode : Nat) (body : α)
  | httpError (statusCode : Nat) (detail : PyVal)
  | unhandled (e : PyExc)
deriving Repr

/-- Whether the outcome is a returned or raised response with the given
status. -/
def RouteResult.hasStatus {α : Type} : RouteResult α → Nat → Bool
  | .response s _, n => s == n
  | .httpError s _, n => s == n
  | .unhandled _, _ => false

/-- The generic `except Exception` clause shared by the address and
balance routes: `error_dict = ast.literal_eval(str(e))` then
`raise HTTPException(status_code=400, detail=error_dict)`. When
`literal_eval` cannot parse the string it raises itself and nothing
handles it. -/
def literalEvalHandler {α : Type} (e : PyExc) : RouteResult α :=
  match literalEval (excStr e) with
  | some d => .httpError 400 d
  | none => .unhandled (PyExc.valueError (excStr e))

/-- `GET /wallet/address` (`get_wallet_address` in
`src/app/routes/wallet.py`): return
`payment_processor.get_account_data(identifier=user.email)`; on any
exception, re-parse its string with `ast.literal_eval` and raise a 400
with the parsed detail. -/
def get_wallet_address (o : SdkOracle) (userEmail : String) :
    RouteResult AccountData × List SdkCall :=
  match o.get_account_data userEmail with
  | .ok a => (.response 200 a, [SdkCall.get_account_data userEmail])
  | .error e => (literalEvalHandler e, [SdkCall.get_account_data userEmail])

/-- `GET /wallet/balance` (`get_balance` in
`src/app/routes/wallet.py`): for the IOTA backend call `get_balance`
keyed by the user email; otherwise resolve the address through
`get_account_data` first and call `get_balance` on it. A
`WalletException` becomes a 400 whose detail is the exception string;
any other exception goes through the `literal_eval` handler. -/
def get_balance (backend : Backend) (o : SdkOracle) (userEmail : String) :
    RouteResult PyVal × List SdkCall :=
  if backend = Backend.iota then
    match o.get_balance userEmail with
    | .ok b => (.response 200 b, [SdkCall.get_balance userEmail])
    | .error e =>
      (if e.isWallet then .httpError 400 (PyVal.str (excStr e)) else literalEvalHandler e,
       [SdkCall.get_balance userEmail])
  else
    match o.get_account_data userEmail with
    | .error e =>
      (if e.isWallet then .httpError 400 (PyVal.str (excStr e)) else literalEvalHandler e,
       [SdkCall.get_account_data userEmail])
    | .ok a =>
      match o.get_balance a.address with
      | .ok b =>
        (.response 200 b, [SdkCall.get_account_data userEmail, SdkCall.get_balance a.address])
      | .error e =>
        (if e.isWallet then .httpError 400 (PyVal.str (excStr e)) else literalEvalHandler e,
         [SdkCall.get_account_data userEmail, SdkCall.get_balance a.address])

/-- `GET /wallet/request_funds` (`get_request_funds` in
`src/app/routes/wallet.py`): inside the `try` block, an Ethereum backend
raises `HTTPException(400, "Faucet not available for Ethereum")`;
otherwise the address is resolved and `request_funds` invoked. The
`except Exception` clause catches every exception raised in the block —
including that `HTTPException` — and re-parses its string with
`ast.literal_eval` to build the 400 detail. -/
def get_request_funds (backend : Backend) (o : SdkOracle) (userEmail : String) :
    RouteResult String × List SdkCall :=
  if backend = Backend.ethereum then
    (literalEvalHandler (PyExc.httpExc 400 "Faucet not available for Ethereum"), [])
  else
    match o.get_account_data userEmail with
    | .error e => (literalEvalHandler e, [SdkCall.get_account_data userEmail])
    | .ok a =>
      match o.request_funds a.address with
      | .error e =>
        (literalEvalHandler e,
         [SdkCall.get_account_data userEmail, SdkCall.request_funds a.address])
      | .ok r =>
        (.response 200 r,
         [SdkCall.get_account_data userEmail, SdkCall.request_funds a.address])

/-- The upstream market server response observed by a route: status code
and JSON body. -/
structure UpstreamResponse where
  statusCode : Nat
  body : PyVal
deriving Repr

/-- The credentials of a login or registration request. -/
structure Creds where
  email : String
  password : String
deriving Repr, DecidableEq

/-- The success body of the login and refresh routes: the two local
signed tokens and the token type. -/
structure TokenBody where
  access_token : SignedToken
  refresh_token : SignedToken
  token_type : String
deriving Repr, DecidableEq

/-- The full outcome of the login route: HTTP result, database state
after the request, and scheduled background tasks. -/
structure LoginOutcome where
  result : RouteResult TokenBody
  db : Db
  tasks : List BgTask
deriving Repr

/-- `POST /user/login` (`login` in `src/app/routes/user.py`): forward
the credentials upstream (the response is this function's `upstream`
argument), authenticate locally (400 on mismatch, before the upstream
status is inspected), and on upstream 200 cache the upstream access
token, schedule expired-token cleanup and return the two local tokens;
on any other upstream status raise
`HTTPException(response.status_code, "Failed to login")`. -/
def login (upstream : UpstreamResponse) (credentials : Creds) (db : Db) (now : Nat) :
    LoginOutcome :=
  match authenticate_user credentials.email credentials.password db with
  | none => ⟨.httpError 400 (PyVal.str "Incorrect username or password"), db, []⟩
  | some user =>
    let access_token := create_access_token user.email now
    let refresh_token := create_refresh_token user.email now
    if upstream.statusCode = 200 then
      match pyGetStr upstream.body "access" with
      | some tok =>
        ⟨.response 200 ⟨access_token, refresh_token, "bearer"⟩,
         add_token db user.email tok,
         [BgTask.cleanup_expired_tokens user.email]⟩
      | none =>
        ⟨.unhandled (PyExc.genericExc "KeyError: access"), db, []⟩
    else
      ⟨.httpError upstream.statusCode (PyVal.str "Failed to login"), db, []⟩

/-- The outcome of the social-login route. Its handler body sits in a
`try` block whose `except Exception` clause returns
`JSONResponse({"error": str(e)}, status_code=500)`, so the result is
either the token body or an error body. -/
inductive SocialResult where
  | okTokens (body : TokenBody)
  | errorBody (statusCode : Nat) (body : PyVal)
deriving Repr

/-- The full outcome of the social-login route. -/
structure SocialOutcome where
  result : SocialResult
  db : Db
  calls : List SdkCall
  tasks : List BgTask
deriving Repr

/-- The `{"error": str(e)}` body built by the catch-all clauses. -/
def errBody (msg : String) : PyVal :=
  PyVal.dict [("error", PyVal.str msg)]

/-- `POST /user/social-login` (the second `login` function in
`src/app/routes/user.py`): everything happens inside `try`/`except
Exception`. A non-201 upstream status raises
`HTTPException(response.status_code, "Failed to login")`, which the
catch-all converts into a 500 whose error string is the stringified
exception. On 201, an absent local user row is provisioned with a random
password and a payment account is created; the upstream token is cached,
local tokens issued and cleanup scheduled. The `upstream` argument is
`Except` because a connection failure inside the `try` block is also
caught by the catch-all. -/
def social_login (upstream : Except PyExc UpstreamResponse) (o : SdkOracle)
    (randomPassword : String) (db : Db) (now : Nat) : SocialOutcome :=
  match upstream with
  | .error e => ⟨.errorBody 500 (errBody (excStr e)), db, [], []⟩
  | .ok r =>
    if r.statusCode ≠ 201 then
      ⟨.errorBody 500 (errBody (excStr (PyExc.httpExc r.statusCode "Failed to login"))),
       db, [], []⟩
    else
      match pyGet r.body "data" with
      | none => ⟨.errorBody 500 (errBody "KeyError: data"), db, [], []⟩
      | some data =>
        match pyGetStr data "user_email", pyGetStr data "access" with
        | some userEmail, some tok =>
          (match findUser db userEmail with
           | some _ =>
             ⟨.okTokens ⟨create_access_token userEmail now,
                         create_refresh_token userEmail now, "bearer"⟩,
              add_token db userEmail tok, [],
              [BgTask.cleanup_expired_tokens userEmail]⟩
           | none =>
             let db1 : Db :=
               { db with users := db.users ++ [⟨userEmail, pwd_hash randomPassword⟩] }
             match o.create_account userEmail with
             | .error e =>
               ⟨.errorBody 500 (errBody (excStr e)), db1,
                [SdkCall.create_account userEmail], []⟩
             | .ok _ =>
               ⟨.okTokens ⟨create_access_token userEmail now,
                           create_refresh_token userEmail now, "bearer"⟩,
                add_token db1 userEmail tok,
                [SdkCall.create_account userEmail],
                [BgTask.cleanup_expired_tokens userEmail]⟩)
        | _, _ => ⟨.errorBody 500 (errBody "KeyError: user_email or access"), db, [], []⟩

/-- `POST /user/refresh` (`post_refresh_token` in
`src/app/routes/user.py`): resolve the refresh token subject (the
dependency raises 401 when the signature or expiry check fails), require
a matching local user row — raising
`HTTPException(401, "Invalid token")` when absent — and issue a fresh
access/refresh pair for the same subject. -/
def post_refresh_token (refreshToken : SignedToken) (db : Db) (now : Nat) :
    RouteResult TokenBody :=
  match get_payload_from_refresh_token now refreshToken with
  | none => .httpError 401 (PyVal.str "Invalid token")
  | some email =>
    match findUser db email with
    | none => .httpError 401 (PyVal.str "Invalid token")
    | some _ =>
      .response 200 ⟨create_access_token email now, create_refresh_token email now, "bearer"⟩

/-- The full outcome of the register route. -/
structure RegisterOutcome where
  result : RouteResult PyVal
  db : Db
  calls : List SdkCall
deriving Repr

/-- `POST /user/register` (`register_user` in
`src/app/routes/user.py`): a `ConnectionError` from the upstream call
yields a 503 error body (any other exception there propagates). On
upstream 201 or 409, an absent local user row is inserted, then
`payment_processor.create_account` runs; if it raises, the handler sets
`status_code = 400` and an error body — but the final
`JSONResponse(content=content, status_code=status.HTTP_201_CREATED)`
passes the constant 201, so the recomputed status code is never used.
All other upstream statuses are re-raised with the upstream status and
body. -/
def register_user (upstream : Except PyExc UpstreamResponse) (credentials : Creds)
    (o : SdkOracle) (db : Db) : RegisterOutcome :=
  match upstream with
  | .error (PyExc.connectionError m) =>
    ⟨.response 503 (errBody m), db, []⟩
  | .error e => ⟨.unhandled e, db, []⟩
  | .ok r =>
    let content := r.body
    let statusCode := r.statusCode
    if statusCode = 201 ∨ statusCode = 409 then
      let db1 : Db :=
        match findUser db credentials.email with
        | some _ => db
        | none =>
          { db with users := db.users ++ [⟨credentials.email, pwd_hash credentials.password⟩] }
      match o.create_account credentials.email with
      | .ok _ =>
        ⟨.response 201 content, db1, [SdkCall.create_account credentials.email]⟩
      | .error e =>
        ⟨.response 201 (errBody (excStr e)), db1, [SdkCall.create_account credentials.email]⟩
    else
      ⟨.httpError statusCode content, db, []⟩

/-- An SDK oracle whose every method raises a generic exception, for
exercising failure paths on concrete inputs. -/
def failingOracle : SdkOracle where
  create_account := fun _ => Except.error (PyExc.genericExc "wallet backend down")
  get_account_data := fun _ => Except.error (PyExc.genericExc "wallet backend down")
  get_balance := fun _ => Except.error (PyExc.genericExc "wallet backend down")
  request_funds := fun _ => Except.error (PyExc.genericExc "wallet backend down")

/-- An SDK oracle whose every method succeeds, resolving each identifier
to a derived address. -/
def okOracle : SdkOracle where
  create_account := fun _ => Except.ok (PyVal.str "created")
  get_account_data := fun ident => Except.ok ⟨"addr-" ++ ident⟩
  get_balance := fun _ => Except.ok (PyVal.int 100)
  request_funds := fun _ => Except.ok "funded"

/-- A store holding one registered user, for concrete instantiations. -/
def sampleDb : Db := ⟨[⟨"alice@example.com", pwd_hash "pw1"⟩], []⟩

/-- The wire form of a signed token is never the empty string. -/
theorem encodeToken_ne_empty (t : SignedToken) : encodeToken t ≠ "" := by
  intro h
  have h2 : (encodeToken t).data = "".data := congrArg String.data h
  simp [encodeToken, String.data_append] at h2

/-- On upstream 201 or 409, the register route commits the user row (when
absent) before the payment-account call, so the resulting store does not
depend on that call's outcome. -/
theorem register_user_db (r : UpstreamResponse) (credentials : Creds) (o : SdkOracle)
    (db : Db) (h : r.statusCode = 201 ∨ r.statusCode = 409) :
    (register_user (Except.ok r) credentials o db).db
      = match findUser db credentials.email with
        | some _ => db
        | none =>
          { db with users := db.users ++ [⟨credentials.email, pwd_hash credentials.password⟩] } := by
  unfold register_user
  simp only [if_pos h]
  cases findUser db credentials.email <;> cases o.create_account credentials.email <;> rfl

/-- On upstream 201 or 409, the register route always invokes exactly one
payment-account creation for the registered email. -/
theorem register_user_calls (r : UpstreamResponse) (credentials : Creds) (o : SdkOracle)
    (db : Db) (h : r.statusCode = 201 ∨ r.statusCode = 409) :
    (register_user (Except.ok r) credentials o db).calls
      = [SdkCall.create_account credentials.email] := by
  unfold register_user
  simp only [if_pos h]
  cases findUser db credentials.email <;> cases o.create_account credentials.email <;> rfl

/-- When no user row matches an email, the row filter for that email is
empty. -/
theorem findUser_none_filter (db : Db) (email : String)
    (h : findUser db email = none) :
    db.users.filter (fun u => u.email == email) = [] := by
  rw [List.filter_eq_nil_iff]
  intro u hu
  have := List.find?_eq_none.mp h u hu
  simpa using this

/-- C1: evaluation at the failing input. With upstream 201 (and likewise
409) and a payment-account creation that raises, the register route
returns HTTP 201 — a success status, because the final `JSONResponse`
hardcodes `status.HTTP_201_CREATED` and discards the 400 computed in the
`except` clause — with the error body, while the local user row created
earlier in the flow is persisted. The claim (and the spec) say the
overall response is downgraded to an error status; the persisted-row
half of the claim holds. -/
theorem register_payment_failure_keeps_201_and_user :
    (register_user (Except.ok ⟨201, PyVal.dict []⟩) ⟨"alice@example.com", "pw1"⟩
        failingOracle ⟨[], []⟩).result
      = RouteResult.response 201 (errBody "wallet backend down")
    ∧ RouteResult.hasStatus
        (register_user (Except.ok ⟨201, PyVal.dict []⟩) ⟨"alice@example.com", "pw1"⟩
          failingOracle ⟨[], []⟩).result 400 = false
    ∧ countUsers
        (register_user (Except.ok ⟨201, PyVal.dict []⟩) ⟨"alice@example.com", "pw1"⟩
          failingOracle ⟨[], []⟩).db "alice@example.com" = 1
    ∧ (register_user (Except.ok ⟨409, PyVal.dict []⟩) ⟨"alice@example.com", "pw1"⟩
        failingOracle sampleDb).result
      = RouteResult.response 201 (errBody "wallet backend down") :=
  ⟨rfl, rfl, rfl, rfl⟩

/-- C2: evaluation at the failing input. For the Ethereum backend the
faucet route raises `HTTPException(400, "Faucet not available for
Ethereum")` inside its `try` block, but the `except Exception` clause
catches it and feeds its string form `400: Faucet not available for
Ethereum` to `ast.literal_eval`, which raises: the route ends in an
unhandled exception, not the explicit 400 response the claim (and the
spec) describe. The second half of the claim holds: the SDK method
`request_funds` is never invoked (the call trace of the Ethereum branch
is always empty). -/
theorem request_funds_ethereum_rejection_swallowed :
    get_request_funds Backend.ethereum failingOracle "alice@example.com"
      = (RouteResult.unhandled (PyExc.valueError "400: Faucet not available for Ethereum"), [])
    ∧ (∀ (o : SdkOracle) (email : String),
        (get_request_funds Backend.ethereum o email).2 = []) :=
  ⟨rfl, fun _ _ => rfl⟩

/-- C3: counterexample. A login request whose upstream call returns 403
with body `upstream body` (and whose local authentication succeeds)
does not produce a response carrying the upstream body as the error:
the code raises `HTTPException(response.status_code, "Failed to
login")`, replacing the body with a fixed detail string. -/
theorem login_upstream_body_not_passed_through :
    (login ⟨403, PyVal.str "upstream body"⟩ ⟨"alice@example.com", "pw1"⟩ sampleDb 0).result
      ≠ RouteResult.httpError 403 (PyVal.str "upstream body") := by
  intro h
  have h2 : RouteResult.httpError (α := TokenBody) 403 (PyVal.str "Failed to login")
      = RouteResult.httpError 403 (PyVal.str "upstream body") := h
  injection h2 with h3 h4
  injection h4 with h5
  exact absurd h5 (by decide)

/-- C3, amended: for a login request whose upstream call returns a
status other than 200 (local authentication having succeeded), the local
response carries the upstream status code but the fixed detail string
`Failed to login`, not the upstream body; for a social-login request
whose upstream call does not return 201, the local response is a 500
whose error body is the stringified `HTTPException` embedding the
upstream status code and `Failed to login` — the upstream status and
body are not passed through unchanged by either route. -/
theorem login_and_social_upstream_error_mapping :
    (∀ (upstream : UpstreamResponse) (credentials : Creds) (db : Db) (now : Nat)
        (user : UserRec),
      authenticate_user credentials.email credentials.password db = some user →
      upstream.statusCode ≠ 200 →
      (login upstream credentials db now).result
        = RouteResult.httpError upstream.statusCode (PyVal.str "Failed to login"))
    ∧ (∀ (r : UpstreamResponse) (o : SdkOracle) (randomPassword : String)
        (db : Db) (now : Nat),
      r.statusCode ≠ 201 →
      social_login (Except.ok r) o randomPassword db now
        = ⟨SocialResult.errorBody 500
            (errBody (excStr (PyExc.httpExc r.statusCode "Failed to login"))),
           db, [], []⟩) := by
  constructor
  · intro upstream credentials db now user hauth hstatus
    simp [login, hauth, hstatus]
  · intro r o randomPassword db now hstatus
    simp [social_login, hstatus]

/-- C3, witness for the amended theorem at concrete inputs. -/
theorem login_and_social_upstream_error_mapping_witness :
    (login ⟨403, PyVal.str "upstream body"⟩ ⟨"alice@example.com", "pw1"⟩ sampleDb 0).result
      = RouteResult.httpError 403 (PyVal.str "Failed to login")
    ∧ social_login (Except.ok ⟨403, PyVal.str "denied"⟩) okOracle "rnd" sampleDb 0
        = ⟨SocialResult.errorBody 500
            (errBody (excStr (PyExc.httpExc 403 "Failed to login"))), sampleDb, [], []⟩ :=
  ⟨login_and_social_upstream_error_mapping.1 ⟨403, PyVal.str "upstream body"⟩
      ⟨"alice@example.com", "pw1"⟩ sampleDb 0 ⟨"alice@example.com", pwd_hash "pw1"⟩
      rfl (by decide),
   login_and_social_upstream_error_mapping.2 ⟨403, PyVal.str "denied"⟩
      okOracle "rnd" sampleDb 0 (by decide)⟩

/-- C4: for every login request whose supplied password hashes to
something other than the stored hash for that email — which also covers
the case of no matching local user row — the route answers 400 with
detail `Incorrect username or password`, whatever the upstream response
was: the local check runs before the upstream status is inspected. -/
theorem login_local_mismatch_yields_400 (upstream : UpstreamResponse)
    (credentials : Creds) (db : Db) (now : Nat)
    (h : ∀ u, findUser db credentials.email = some u →
      pwd_hash credentials.password ≠ u.password_hash) :
    (login upstream credentials db now).result
      = RouteResult.httpError 400 (PyVal.str "Incorrect username or password") := by
  have hauth : authenticate_user credentials.email credentials.password db = none := by
    unfold authenticate_user
    cases hf : findUser db credentials.email with
    | none => rfl
    | some u => simp [h u hf]
  simp [login, hauth]

/-- C4: witness — the wrong password is rejected with 400 even though
the upstream response was a 200 acceptance. -/
theorem login_local_mismatch_yields_400_witness :
    (login ⟨200, PyVal.dict [("access", PyVal.str "utok")]⟩
        ⟨"alice@example.com", "wrongpw"⟩ sampleDb 0).result
      = RouteResult.httpError 400 (PyVal.str "Incorrect username or password") := by
  apply login_local_mismatch_yields_400
  intro u hu
  rw [show findUser sampleDb "alice@example.com"
      = some ⟨"alice@example.com", pwd_hash "pw1"⟩ from rfl] at hu
  injection hu with h2
  subst h2
  decide

/-- C5: for every login request with upstream status 200 carrying an
`access` token and succeeding local authentication, the route returns a
200 response whose access and refresh tokens have non-empty wire forms,
appends the upstream token to the local token cache, and schedules the
expired-token cleanup task for that user (run by `BackgroundTasks` after
the response). -/
theorem login_success_tokens_cache_and_cleanup (upstream : UpstreamResponse)
    (credentials : Creds) (db : Db) (now : Nat) (user : UserRec) (tok : String)
    (hauth : authenticate_user credentials.email credentials.password db = some user)
    (hstatus : upstream.statusCode = 200)
    (htok : pyGetStr upstream.body "access" = some tok) :
    (login upstream credentials db now).result
      = RouteResult.response 200
          ⟨create_access_token user.email now, create_refresh_token user.email now, "bearer"⟩
    ∧ encodeToken (create_access_token user.email now) ≠ ""
    ∧ encodeToken (create_refresh_token user.email now) ≠ ""
    ∧ (login upstream credentials db now).db.tokens = db.tokens ++ [⟨user.email, tok⟩]
    ∧ (login upstream credentials db now).tasks
        = [BgTask.cleanup_expired_tokens user.email] := by
  refine ⟨?_, encodeToken_ne_empty _, encodeToken_ne_empty _, ?_, ?_⟩ <;>
    simp [login, hauth, hstatus, htok, add_token]

/-- C5: witness at a concrete successful login. -/
theorem login_success_tokens_cache_and_cleanup_witness :
    (login ⟨200, PyVal.dict [("access", PyVal.str "upstream-token")]⟩
        ⟨"alice@example.com", "pw1"⟩ sampleDb 7).result
      = RouteResult.response 200
          ⟨create_access_token "alice@example.com" 7,
           create_refresh_token "alice@example.com" 7, "bearer"⟩
    ∧ (login ⟨200, PyVal.dict [("access", PyVal.str "upstream-token")]⟩
        ⟨"alice@example.com", "pw1"⟩ sampleDb 7).tasks
      = [BgTask.cleanup_expired_tokens "alice@example.com"] :=
  ⟨(login_success_tokens_cache_and_cleanup
      ⟨200, PyVal.dict [("access", PyVal.str "upstream-token")]⟩
      ⟨"alice@example.com", "pw1"⟩ sampleDb 7
      ⟨"alice@example.com", pwd_hash "pw1"⟩ "upstream-token" rfl rfl rfl).1,
   (login_success_tokens_cache_and_cleanup
      ⟨200, PyVal.dict [("access", PyVal.str "upstream-token")]⟩
      ⟨"alice@example.com", "pw1"⟩ sampleDb 7
      ⟨"alice@example.com", pwd_hash "pw1"⟩ "upstream-token" rfl rfl rfl).2.2.2.2⟩

/-- C6: the balance route keys the IOTA backend by the user email — its
call trace is exactly one `get_balance` on the email, never an
address-resolution call — while a non-IOTA backend first resolves the
email through `get_account_data` and then calls `get_balance` on the
resolved address. -/
theorem balance_backend_routing (o : SdkOracle) (email : String) :
    ((get_balance Backend.iota o email).2 = [SdkCall.get_balance email]
      ∧ ∀ ident, SdkCall.get_account_data ident ∉ (get_balance Backend.iota o email).2)
    ∧ (∀ a, o.get_account_data email = Except.ok a →
        (get_balance Backend.ethereum o email).2
          = [SdkCall.get_account_data email, SdkCall.get_balance a.address]) := by
  refine ⟨⟨?_, ?_⟩, ?_⟩
  · cases h : o.get_balance email <;> simp [get_balance, h]
  · intro ident
    cases h : o.get_balance email <;> simp [get_balance, h]
  · intro a ha
    cases h : o.get_balance a.address <;> simp [get_balance, ha, h]

/-- C6: witness on a concrete resolving oracle. -/
theorem balance_backend_routing_witness :
    (get_balance Backend.iota okOracle "alice@example.com").2
      = [SdkCall.get_balance "alice@example.com"]
    ∧ (get_balance Backend.ethereum okOracle "alice@example.com").2
      = [SdkCall.get_account_data "alice@example.com",
         SdkCall.get_balance "addr-alice@example.com"] :=
  ⟨(balance_backend_routing okOracle "alice@example.com").1.1,
   (balance_backend_routing okOracle "alice@example.com").2
      ⟨"addr-alice@example.com"⟩ rfl⟩

/-- C7: registering the same email twice is idempotent on the local user
store. The first call (upstream 201, email absent locally) leaves
exactly one user row for the email; a second call whose upstream
response is 409 leaves the store unchanged — no duplicate row — while
still invoking payment-account creation for the email, whatever either
payment call returns. -/
theorem register_twice_no_duplicate_user (credentials : Creds) (o1 o2 : SdkOracle)
    (db : Db) (r1 r2 : UpstreamResponse)
    (h0 : findUser db credentials.email = none)
    (h1 : r1.statusCode = 201) (h2 : r2.statusCode = 409) :
    countUsers (register_user (Except.ok r1) credentials o1 db).db credentials.email = 1
    ∧ (register_user (Except.ok r2) credentials o2
        (register_user (Except.ok r1) credentials o1 db).db).db
      = (register_user (Except.ok r1) credentials o1 db).db
    ∧ SdkCall.create_account credentials.email
        ∈ (register_user (Except.ok r2) credentials o2
            (register_user (Except.ok r1) credentials o1 db).db).calls := by
  have hdb1 : (register_user (Except.ok r1) credentials o1 db).db
      = { db with users := db.users ++ [⟨credentials.email, pwd_hash credentials.password⟩] } := by
    rw [register_user_db r1 credentials o1 db (Or.inl h1), h0]
  have hcount :
      countUsers (register_user (Except.ok r1) credentials o1 db).db credentials.email = 1 := by
    rw [hdb1]
    unfold countUsers
    simp [List.filter_append, findUser_none_filter db credentials.email h0]
  have hfind1 :
      findUser (register_user (Except.ok r1) credentials o1 db).db credentials.email
        = some ⟨credentials.email, pwd_hash credentials.password⟩ := by
    rw [hdb1]
    unfold findUser at h0 ⊢
    simp [List.find?_append, h0]
  refine ⟨hcount, ?_, ?_⟩
  · rw [register_user_db r2 credentials o2 _ (Or.inr h2), hfind1]
  · rw [register_user_calls r2 credentials o2 _ (Or.inr h2)]
    exact List.mem_singleton.mpr rfl

/-- C7: witness — a fresh registration followed by a conflicting one,
the second with a failing payment backend. -/
theorem register_twice_no_duplicate_user_witness :
    countUsers (register_user (Except.ok ⟨201, PyVal.dict []⟩)
        ⟨"alice@example.com", "pw1"⟩ okOracle ⟨[], []⟩).db "alice@example.com" = 1
    ∧ (register_user (Except.ok ⟨409, PyVal.dict []⟩) ⟨"alice@example.com", "pw1"⟩
        failingOracle (register_user (Except.ok ⟨201, PyVal.dict []⟩)
          ⟨"alice@example.com", "pw1"⟩ okOracle ⟨[], []⟩).db).db
      = (register_user (Except.ok ⟨201, PyVal.dict []⟩)
          ⟨"alice@example.com", "pw1"⟩ okOracle ⟨[], []⟩).db
    ∧ SdkCall.create_account "alice@example.com"
        ∈ (register_user (Except.ok ⟨409, PyVal.dict []⟩) ⟨"alice@example.com", "pw1"⟩
            failingOracle (register_user (Except.ok ⟨201, PyVal.dict []⟩)
              ⟨"alice@example.com", "pw1"⟩ okOracle ⟨[], []⟩).db).calls :=
  register_twice_no_duplicate_user ⟨"alice@example.com", "pw1"⟩ okOracle failingOracle
    ⟨[], []⟩ ⟨201, PyVal.dict []⟩ ⟨409, PyVal.dict []⟩ rfl rfl rfl

/-- C8: a refresh token issued for an email with an existing local user
row, submitted before expiry and untampered, yields a fresh
access/refresh pair whose subjects are that same email; any token that
is expired, or whose signature does not match its payload, receives
401. -/
theorem refresh_token_roundtrip_and_rejection (email : String) (db : Db)
    (now0 now : Nat) (huser : (findUser db email).isSome) :
    (now < (create_refresh_token email now0).exp →
      post_refresh_token (create_refresh_token email now0) db now
        = RouteResult.response 200
            ⟨create_access_token email now, create_refresh_token email now, "bearer"⟩
      ∧ (create_access_token email now).sub = email
      ∧ (create_refresh_token email now).sub = email)
    ∧ (∀ t : SignedToken, ¬ now < t.exp →
        post_refresh_token t db now = RouteResult.httpError 401 (PyVal.str "Invalid token"))
    ∧ (∀ t : SignedToken, t.sig ≠ signMac SECRET_KEY (tokenMsg "refresh" t.sub t.exp) →
        post_refresh_token t db now = RouteResult.httpError 401 (PyVal.str "Invalid token")) := by
  obtain ⟨u, hu⟩ := Option.isSome_iff_exists.mp huser
  refine ⟨?_, ?_, ?_⟩
  · intro hexp
    have hexp2 : now < now0 + REFRESH_TOKEN_LIFETIME := by
      simpa [create_refresh_token] using hexp
    refine ⟨?_, rfl, rfl⟩
    unfold post_refresh_token get_payload_from_refresh_token
    simp [create_refresh_token, hexp2, hu]
  · intro t hexp
    unfold post_refresh_token get_payload_from_refresh_token
    by_cases hs : t.sig == signMac SECRET_KEY (tokenMsg "refresh" t.sub t.exp) <;>
      simp [hs, hexp]
  · intro t hsig
    unfold post_refresh_token get_payload_from_refresh_token
    simp [hsig]

/-- C8: witness — a round trip for a registered user and the rejection
of a tampered token. -/
theorem refresh_token_roundtrip_and_rejection_witness :
    post_refresh_token (create_refresh_token "alice@example.com" 0) sampleDb 5
      = RouteResult.response 200
          ⟨create_access_token "alice@example.com" 5,
           create_refresh_token "alice@example.com" 5, "bearer"⟩
    ∧ post_refresh_token ⟨"alice@example.com", 99, "tampered"⟩ sampleDb 5
      = RouteResult.httpError 401 (PyVal.str "Invalid token") :=
  ⟨((refresh_token_roundtrip_and_rejection "alice@example.com" sampleDb 0 5 rfl).1
      (by decide)).1,
   (refresh_token_roundtrip_and_rejection "alice@example.com" sampleDb 0 5 rfl).2.2
      ⟨"alice@example.com", 99, "tampered"⟩ (by decide)⟩

/-- C9: a refresh token that is correctly signed and unexpired but whose
subject has no matching local user row receives 401 with detail
`Invalid token` and no new tokens. -/
theorem refresh_unknown_subject_401 (t : SignedToken) (db : Db) (now : Nat)
    (hsig : t.sig = signMac SECRET_KEY (tokenMsg "refresh" t.sub t.exp))
    (hexp : now < t.exp)
    (huser : findUser db t.sub = none) :
    post_refresh_token t db now = RouteResult.httpError 401 (PyVal.str "Invalid token") := by
  unfold post_refresh_token get_payload_from_refresh_token
  simp [hsig, hexp, huser]

/-- C9: witness — a valid token for an unregistered subject. -/
theorem refresh_unknown_subject_401_witness :
    post_refresh_token (create_refresh_token "bob@example.com" 0) sampleDb 5
      = RouteResult.httpError 401 (PyVal.str "Invalid token") :=
  refresh_unknown_subject_401 (create_refresh_token "bob@example.com" 0) sampleDb 5
    rfl (by decide) rfl

/-- C10: the address route, the balance route (for non-WalletException
exceptions) and the faucet route all funnel a caught exception through
the handler that re-parses its string form with `ast.literal_eval`;
that handler produces a 400 response exactly when the string form is a
valid literal, and otherwise itself raises, so no 400 with a structured
body is produced — in particular the Ethereum faucet rejection, whose
string form `400: Faucet not available for Ethereum` is not a literal,
ends as an unhandled exception. -/
theorem wallet_literal_eval_handler_totality :
    (∀ (o : SdkOracle) (email : String) (e : PyExc),
      o.get_account_data email = Except.error e →
      (get_wallet_address o email).1 = literalEvalHandler e)
    ∧ (∀ (o : SdkOracle) (email : String) (e : PyExc),
      e.isWallet = false → o.get_balance email = Except.error e →
      (get_balance Backend.iota o email).1 = literalEvalHandler e)
    ∧ (∀ (o : SdkOracle) (email : String) (e : PyExc),
      o.get_account_data email = Except.error e →
      (get_request_funds Backend.iota o email).1 = literalEvalHandler e)
    ∧ (∀ (α : Type) (e : PyExc),
      (literalEvalHandler (α := α) e).hasStatus 400 = (literalEval (excStr e)).isSome)
    ∧ (∀ (α : Type) (e : PyExc), literalEval (excStr e) = none →
      literalEvalHandler (α := α) e = RouteResult.unhandled (PyExc.valueError (excStr e)))
    ∧ (∀ (o : SdkOracle) (email : String),
      get_request_funds Backend.ethereum o email
        = (RouteResult.unhandled
            (PyExc.valueError "400: Faucet not available for Ethereum"), [])) := by
  refine ⟨?_, ?_, ?_, ?_, ?_, ?_⟩
  · intro o email e h
    simp [get_wallet_address, h]
  · intro o email e hw h
    simp [get_balance, h, hw]
  · intro o email e h
    simp [get_request_funds, h]
  · intro α e
    unfold literalEvalHandler
    cases h : literalEval (excStr e) <;> simp [RouteResult.hasStatus]
  · intro α e h
    simp [literalEvalHandler, h]
  · intro o email
    rfl

/-- C10: witness — a parseable exception string produces the 400, an
unparseable one is re-raised, and the Ethereum faucet case ends
unhandled. -/
theorem wallet_literal_eval_handler_totality_witness :
    (get_wallet_address failingOracle "alice@example.com").1
      = literalEvalHandler (PyExc.genericExc "wallet backend down")
    ∧ (literalEvalHandler (α := PyVal) (PyExc.genericExc "123")).hasStatus 400
      = (literalEval "123").isSome
    ∧ literalEvalHandler (α := PyVal) (PyExc.genericExc "wallet backend down")
      = RouteResult.unhandled (PyExc.valueError "wallet backend down")
    ∧ get_request_funds Backend.ethereum okOracle "alice@example.com"
      = (RouteResult.unhandled
          (PyExc.valueError "400: Faucet not available for Ethereum"), []) :=
  ⟨wallet_literal_eval_handler_totality.1 failingOracle "alice@example.com"
      (PyExc.genericExc "wallet backend down") rfl,
   wallet_literal_eval_handler_totality.2.2.2.1 PyVal (PyExc.genericExc "123"),
   wallet_literal_eval_handler_totality.2.2.2.2.1 PyVal
      (PyExc.genericExc "wallet backend down") rfl,
   wallet_literal_eval_handler_totality.2.2.2.2.2 okOracle "alice@example.com"⟩

end Predico
